import Mathlib

/-!
Shallow embedding of `stock_valuation_app.py` (the valuation engine of the
Stock Valuation App) over exact rational arithmetic.

Modelling conventions:
* Provider fields (`stock.info.get(key, default)`) are three-state:
  `none` = key absent, `some none` = key present with value `None`,
  `some (some x)` = key present with numeric value `x`.
* A whole fetch that raises inside `yf.Ticker(...)` / `.info` is modelled by
  passing `none : Option Info` to the function whose `try` block contains
  the fetch.
* Python exceptions raised inside the `try` bodies are modelled with
  `Except PyExc`; the `except` handlers at each function boundary are the
  `match` in the `calculate_*` wrappers, which turn any raised exception
  into the Python return value `None`.
* Python float arithmetic is modelled by exact `ℚ` arithmetic; `x / y`
  raises `ZeroDivisionError` when `y = 0`, arithmetic on `None` raises
  `TypeError`, and list indexing out of range raises `IndexError`.
-/

set_option autoImplicit false

/-- Exceptions a body of the Python source can raise. -/
inductive PyExc where
  | indexError
  | zeroDivisionError
  | typeError
  | providerError
  deriving DecidableEq

/-- Python `x / y`: raises `ZeroDivisionError` on a zero divisor. -/
def pydiv (x y : ℚ) : Except PyExc ℚ :=
  if y = 0 then .error .zeroDivisionError else .ok (x / y)

/-- Using a possibly-`None` Python value in arithmetic: `None` raises `TypeError`. -/
def pynum (v : Option ℚ) : Except PyExc ℚ :=
  match v with
  | some x => .ok x
  | none => .error .typeError

/-- Python list indexing `l[i]`: raises `IndexError` out of range. -/
def pyIndex (l : List ℚ) (i : ℕ) : Except PyExc ℚ :=
  match l[i]? with
  | some x => .ok x
  | none => .error .indexError

/-- Python `l[-1]` on a list: raises `IndexError` when empty. -/
def pyLast (l : List ℚ) : Except PyExc ℚ :=
  match l.getLast? with
  | some x => .ok x
  | none => .error .indexError

/-- A Python list comprehension / accumulation loop over `l`, evaluating
`f` left to right and propagating the first exception. -/
def pyListMap {α β : Type} (f : α → Except PyExc β) : List α → Except PyExc (List β)
  | [] => .ok []
  | a :: as => do
    let b ← f a
    let bs ← pyListMap f as
    pure (b :: bs)

/-- Python `info.get(key, dflt)` over a three-state field: absent keys give
the default, present keys give their (possibly `None`) value. -/
def dictGet (field : Option (Option ℚ)) (dflt : Option ℚ) : Option ℚ :=
  match field with
  | none => dflt
  | some v => v

/-- The provider's `stock.info` dictionary restricted to the keys the
source reads.  Each field is three-state (absent / present `None` /
present numeric). -/
structure Info where
  trailingEps : Option (Option ℚ) := none
  earningsQuarterlyGrowth : Option (Option ℚ) := none
  beta : Option (Option ℚ) := none
  operatingCashflow : Option (Option ℚ) := none
  sharesOutstanding : Option (Option ℚ) := none
  cash : Option (Option ℚ) := none
  shortTermInvestments : Option (Option ℚ) := none
  shortTermDebt : Option (Option ℚ) := none
  longTermDebt : Option (Option ℚ) := none

/-- `TERMINAL_GROWTH_RATE = 0.04` (source line 9). -/
def TERMINAL_GROWTH_RATE : ℚ := 0.04

/-- `FORECAST_YEARS = 20` (source line 10). -/
def FORECAST_YEARS : ℕ := 20

/-- `RISK_FREE_RATE = 0.045` (source line 11). -/
def RISK_FREE_RATE : ℚ := 0.045

/-- `MARKET_RISK_PREMIUM = 0.025` (source line 12). -/
def MARKET_RISK_PREMIUM : ℚ := 0.025

/-- `get_growth_rate` (source lines 18-26).  `fetch = none` models the
provider raising inside the `try`.  Python truthiness `growth and growth > 0`
is `g ≠ 0 ∧ 0 < g`. -/
def get_growth_rate (fetch : Option Info) : ℚ × String :=
  match fetch with
  | some info =>
    match dictGet info.earningsQuarterlyGrowth none with
    | some g => if g ≠ 0 ∧ 0 < g then (g, "Yahoo Finance") else (0.10, "Default")
    | none => (0.10, "Default")
  | none => (0.10, "Default")

/-- `get_eps` (source lines 28-36). -/
def get_eps (fetch : Option Info) : Option ℚ × String :=
  match fetch with
  | some info =>
    match dictGet info.trailingEps none with
    | some e => if e ≠ 0 ∧ 0 < e then (some e, "Yahoo Finance") else (none, "Unavailable")
    | none => (none, "Unavailable")
  | none => (none, "Unavailable")

/-- `get_beta` (source lines 38-46). -/
def get_beta (fetch : Option Info) : ℚ :=
  match fetch with
  | some info =>
    match dictGet info.beta none with
    | some b => if b ≠ 0 ∧ 0 < b then b else 1.0
    | none => 1.0
  | none => 1.0

/-- `calculated_discount_rate = RISK_FREE_RATE + beta * MARKET_RISK_PREMIUM`
(source line 161). -/
def calculated_discount_rate (fetch : Option Info) : ℚ :=
  RISK_FREE_RATE + get_beta fetch * MARKET_RISK_PREMIUM

/-- The 5-element `growths` list of the EPS method (source line 81). -/
def growths (growth_rate : ℚ) : List ℚ :=
  [growth_rate, growth_rate, growth_rate / 2, growth_rate / 2, TERMINAL_GROWTH_RATE]

/-- The `projected` list comprehension of the EPS method (source line 82):
`[eps * ((1 + growths[i]) ** (i + 1)) for i in range(FORECAST_YEARS)]`. -/
def eps_projected (eps growth_rate : ℚ) : Except PyExc (List ℚ) :=
  pyListMap
    (fun i => do
      let gi ← pyIndex (growths growth_rate) i
      pure (eps * (1 + gi) ^ (i + 1)))
    (List.range FORECAST_YEARS)

/-- The divisor `(1 + discount_rate) ** (i + 1)` of projection row `i`
(source line 83). -/
def eps_row_divisor (discount_rate : ℚ) (i : ℕ) : ℚ :=
  (1 + discount_rate) ^ (i + 1)

/-- The `discounted` list comprehension of the EPS method (source line 83). -/
def eps_discounted (discount_rate : ℚ) (projected : List ℚ) : Except PyExc (List ℚ) :=
  pyListMap (fun iv => pydiv iv.2 (eps_row_divisor discount_rate iv.1)) projected.enum

/-- The terminal value of the EPS method (source line 85):
`projected[-1] * (1 + TERMINAL_GROWTH_RATE) / (discount_rate - TERMINAL_GROWTH_RATE)`. -/
def eps_terminal_value (lastProjected discount_rate : ℚ) : Except PyExc ℚ :=
  pydiv (lastProjected * (1 + TERMINAL_GROWTH_RATE)) (discount_rate - TERMINAL_GROWTH_RATE)

/-- The discounted terminal value of the EPS method (source line 86):
`terminal / ((1 + discount_rate) ** FORECAST_YEARS)`. -/
def eps_discounted_terminal (terminal discount_rate : ℚ) : Except PyExc ℚ :=
  pydiv terminal ((1 + discount_rate) ^ FORECAST_YEARS)

/-- The terminal-value capping step of the EPS method (source lines 88-94).
Returns `(intrinsic, terminal contribution)` after the cap check. -/
def eps_cap (discounted : List ℚ) (discounted_terminal : ℚ) : Except PyExc (ℚ × ℚ) := do
  let intrinsic := discounted.sum + discounted_terminal
  let q ← pydiv discounted_terminal intrinsic
  if (0.6 : ℚ) < q then
    let capped := (0.6 : ℚ) * intrinsic
    pure (discounted.sum + capped, capped)
  else
    pure (intrinsic, discounted_terminal)

/-- Python `round(x, 2)` modelled as exact rounding to 2 decimal places. -/
def round2 (x : ℚ) : ℚ :=
  (round (x * 100) : ℤ) / 100

/-- The `try` body of `calculate_eps_valuation` (source lines 75-94). -/
def calculate_eps_valuation_body (fetch : Option Info) (discount_rate growth_rate : ℚ) :
    Except PyExc (Option ℚ) :=
  match (get_eps fetch).1 with
  | none => .ok none
  | some eps =>
    if eps ≤ 0 then .ok none
    else do
      let projected ← eps_projected eps growth_rate
      let discounted ← eps_discounted discount_rate projected
      let lastP ← pyLast projected
      let terminal ← eps_terminal_value lastP discount_rate
      let discounted_terminal ← eps_discounted_terminal terminal discount_rate
      let r ← eps_cap discounted discounted_terminal
      pure (some (round2 r.1))

/-- `calculate_eps_valuation` (source lines 74-97): the `except Exception`
handler turns any raised exception into the return value `None`. -/
def calculate_eps_valuation (fetch : Option Info) (discount_rate growth_rate : ℚ) :
    Option ℚ :=
  match calculate_eps_valuation_body fetch discount_rate growth_rate with
  | .ok v => v
  | .error _ => none

/-- The per-year growth selection of the OCF method (source lines 117-122):
years 1-5 use `growth_1_5`, years 6-10 use `growth_1_5 / 2`, later years use
`TERMINAL_GROWTH_RATE`. -/
def ocf_growth (growth_1_5 : ℚ) (year : ℕ) : ℚ :=
  if year ≤ 5 then growth_1_5
  else if year ≤ 10 then growth_1_5 / 2
  else TERMINAL_GROWTH_RATE

/-- One iteration of the OCF projection loop (source lines 116-129),
producing `(projected, discounted)` for one year. -/
def ocf_row (ocf growth_1_5 discount_rate : ℚ) (year : ℕ) : Except PyExc (ℚ × ℚ) := do
  let growth := ocf_growth growth_1_5 year
  let projected := ocf * (1 + growth) ^ year
  let discount_factor ← pydiv 1 ((1 + discount_rate) ^ year)
  pure (projected, projected * discount_factor)

/-- The `try` body of `calculate_ocf_based_intrinsic_value` (source lines
100-144).  `fetch = none` models the provider raising at `yf.Ticker`/`.info`. -/
def calculate_ocf_body (fetch : Option Info) (discount_rate : ℚ) :
    Except PyExc (Option (ℚ × List ℚ × List ℚ)) :=
  match fetch with
  | none => .error .providerError
  | some info => do
    let growth_1_5 ← pynum (dictGet info.earningsQuarterlyGrowth (some 0.10))
    match dictGet info.operatingCashflow none, dictGet info.sharesOutstanding none with
    | some ocf, some shares =>
      if ocf ≤ 0 ∨ shares ≤ 0 then pure none
      else do
        let rows ← pyListMap (ocf_row ocf growth_1_5 discount_rate)
          (List.range' 1 FORECAST_YEARS)
        let projected_ocf := rows.map Prod.fst
        let discounted_ocf := rows.map Prod.snd
        let total_value := discounted_ocf.sum
        let intrinsic_per_share ← pydiv total_value shares
        let cash ← pynum (dictGet info.cash (some 0))
        let short_term_investments ← pynum (dictGet info.shortTermInvestments (some 0))
        let short_term_debt ← pynum (dictGet info.shortTermDebt (some 0))
        let long_term_debt ← pynum (dictGet info.longTermDebt (some 0))
        let cash_per_share ← pydiv (cash + short_term_investments) shares
        let debt_per_share ← pydiv (short_term_debt + long_term_debt) shares
        let final_value := intrinsic_per_share + cash_per_share - debt_per_share
        pure (some (round2 final_value, projected_ocf, discounted_ocf))
    | _, _ => pure none

/-- `calculate_ocf_based_intrinsic_value` (source lines 99-148): the
`except Exception` handler turns any raised exception into the return value
`(None, None, None)`, modelled as `none`. -/
def calculate_ocf_based_intrinsic_value (fetch : Option Info) (discount_rate : ℚ) :
    Option (ℚ × List ℚ × List ℚ) :=
  match calculate_ocf_body fetch discount_rate with
  | .ok v => v
  | .error _ => none

/-! ### Proof infrastructure -/

@[simp] theorem expure_ok {α : Type} (x : α) :
    (pure x : Except PyExc α) = Except.ok x := rfl

@[simp] theorem exbind_ok {α β : Type} (x : α) (k : α → Except PyExc β) :
    (Except.ok x >>= k : Except PyExc β) = k x := rfl

@[simp] theorem exbind_err {α β : Type} (e : PyExc) (k : α → Except PyExc β) :
    ((Except.error e : Except PyExc α) >>= k) = Except.error e := rfl

theorem pydiv_ok {y : ℚ} (x : ℚ) (h : y ≠ 0) : pydiv x y = .ok (x / y) := by
  simp [pydiv, h]

theorem pydiv_zero {y : ℚ} (x : ℚ) (h : y = 0) : pydiv x y = .error .zeroDivisionError := by
  simp [pydiv, h]

@[simp] theorem pynum_some (x : ℚ) : pynum (some x) = .ok x := rfl

@[simp] theorem pynum_null : pynum none = .error .typeError := rfl

@[simp] theorem pyListMap_nil {α β : Type} (f : α → Except PyExc β) :
    pyListMap f [] = .ok [] := rfl

theorem pyListMap_cons {α β : Type} (f : α → Except PyExc β) (a : α) (as : List α) :
    pyListMap f (a :: as) =
      (f a >>= fun b => pyListMap f as >>= fun bs => Except.ok (b :: bs)) := rfl

theorem pyListMap_ok {α β : Type} (f : α → Except PyExc β) (g : α → β) (l : List α)
    (h : ∀ a ∈ l, f a = .ok (g a)) : pyListMap f l = .ok (l.map g) := by
  induction l with
  | nil => rfl
  | cons a as ih =>
    rw [pyListMap_cons, h a (List.mem_cons_self a as),
      ih (fun b hb => h b (List.mem_cons_of_mem a hb))]
    rfl

theorem map_fst_pairs {α : Type} (p q : α → ℚ) (l : List α) :
    (l.map (fun t => (p t, q t))).map Prod.fst = l.map p := by
  induction l <;> simp_all

theorem map_snd_pairs {α : Type} (p q : α → ℚ) (l : List α) :
    (l.map (fun t => (p t, q t))).map Prod.snd = l.map q := by
  induction l <;> simp_all

/-- `get_eps` either fails or yields a strictly positive EPS. -/
theorem get_eps_spec (fetch : Option Info) :
    get_eps fetch = (none, "Unavailable")
    ∨ ∃ e : ℚ, 0 < e ∧ get_eps fetch = (some e, "Yahoo Finance") := by
  cases fetch with
  | none => exact .inl rfl
  | some info =>
    cases h : dictGet info.trailingEps none with
    | none => left; simp [get_eps, h]
    | some e =>
      by_cases he : e ≠ 0 ∧ 0 < e
      · exact .inr ⟨e, he.2, by simp [get_eps, h, he]⟩
      · left; simp [get_eps, h, he]

/-- The 20-step list comprehension over the 5-element `growths` list always
raises `IndexError` (at index 5), whatever the EPS base and growth rate. -/
theorem eps_projected_err (e g : ℚ) : eps_projected e g = .error .indexError := by rfl

/-- The EPS valuation returns `None` on every input: either EPS is
unavailable, or the projection comprehension raises `IndexError`, which the
handler turns into `None`. -/
theorem calculate_eps_valuation_eq_none (fetch : Option Info) (r g : ℚ) :
    calculate_eps_valuation fetch r g = none := by
  rcases get_eps_spec fetch with h | ⟨e, he, h⟩
  · simp [calculate_eps_valuation, calculate_eps_valuation_body, h]
  · simp [calculate_eps_valuation, calculate_eps_valuation_body, h,
      eps_projected_err, not_le.mpr he]

theorem ocf_row_ok (ocf g r : ℚ) (year : ℕ) (h : (1 : ℚ) + r ≠ 0) :
    ocf_row ocf g r year =
      .ok (ocf * (1 + ocf_growth g year) ^ year,
        ocf * (1 + ocf_growth g year) ^ year * (1 / (1 + r) ^ year)) := by
  simp [ocf_row, pydiv_ok _ (pow_ne_zero year h)]

theorem ocf_rows_ok (ocf g r : ℚ) (h : (1 : ℚ) + r ≠ 0) :
    pyListMap (ocf_row ocf g r) (List.range' 1 FORECAST_YEARS) =
      .ok ((List.range' 1 FORECAST_YEARS).map (fun t =>
        (ocf * (1 + ocf_growth g t) ^ t,
          ocf * (1 + ocf_growth g t) ^ t * (1 / (1 + r) ^ t)))) :=
  pyListMap_ok _ _ _ (fun t _ => ocf_row_ok ocf g r t h)

theorem ocf_rows_div0 (ocf g r : ℚ) (h : (1 : ℚ) + r = 0) :
    pyListMap (ocf_row ocf g r) (List.range' 1 FORECAST_YEARS) =
      .error .zeroDivisionError := by
  have h1 : ocf_row ocf g r 1 = .error .zeroDivisionError := by
    simp [ocf_row, pydiv, pow_one, h]
  have hr : List.range' 1 FORECAST_YEARS = 1 :: List.range' 2 19 := rfl
  rw [hr, pyListMap_cons, h1]
  rfl

/-- Full evaluation of the OCF-based valuation on the success path. -/
theorem ocf_eval (info : Info) (r g ocf sh c si sd ld : ℚ)
    (hg : dictGet info.earningsQuarterlyGrowth (some 0.10) = some g)
    (ho : dictGet info.operatingCashflow none = some ocf)
    (hs : dictGet info.sharesOutstanding none = some sh)
    (hop : 0 < ocf) (hsp : 0 < sh)
    (hr : (1 : ℚ) + r ≠ 0)
    (hc : dictGet info.cash (some 0) = some c)
    (hsi : dictGet info.shortTermInvestments (some 0) = some si)
    (hsd : dictGet info.shortTermDebt (some 0) = some sd)
    (hld : dictGet info.longTermDebt (some 0) = some ld) :
    calculate_ocf_based_intrinsic_value (some info) r =
      some
        (round2 (((List.range' 1 FORECAST_YEARS).map (fun t =>
              ocf * (1 + ocf_growth g t) ^ t * (1 / (1 + r) ^ t))).sum / sh
            + (c + si) / sh - (sd + ld) / sh),
         (List.range' 1 FORECAST_YEARS).map (fun t => ocf * (1 + ocf_growth g t) ^ t),
         (List.range' 1 FORECAST_YEARS).map (fun t =>
           ocf * (1 + ocf_growth g t) ^ t * (1 / (1 + r) ^ t))) := by
  have hsh : sh ≠ 0 := ne_of_gt hsp
  simp only [calculate_ocf_based_intrinsic_value, calculate_ocf_body, hg, ho, hs,
    pynum_some, exbind_ok]
  rw [if_neg (by push_neg; exact ⟨hop, hsp⟩)]
  rw [ocf_rows_ok ocf g r hr]
  simp only [exbind_ok, map_fst_pairs, map_snd_pairs]
  rw [pydiv_ok _ hsh]
  simp only [hc, hsi, hsd, hld, pynum_some, exbind_ok]
  rw [pydiv_ok _ hsh, pydiv_ok _ hsh]
  rfl

/-! ### Concrete provider snapshots used by the claim theorems -/

/-- A ticker whose only available field is a positive EPS of 1. -/
def infoEps : Info := { trailingEps := some (some 1) }

/-- A ticker with OCF 100 and 10 shares outstanding; all other keys absent. -/
def infoOCF : Info :=
  { operatingCashflow := some (some 100), sharesOutstanding := some (some 10) }

/-- A ticker whose quarterly earnings growth is present but negative. -/
def infoNeg : Info :=
  { earningsQuarterlyGrowth := some (some (-0.5)),
    operatingCashflow := some (some 100), sharesOutstanding := some (some 10) }

/-- A ticker with a present, positive quarterly earnings growth of 0.2. -/
def infoGrowth : Info := { earningsQuarterlyGrowth := some (some 0.2) }

/-- A ticker with a present, positive beta of 2. -/
def infoBeta : Info := { beta := some (some 2) }

/-- A ticker with valid OCF and shares but `cash` present with value `None`. -/
def infoNull : Info :=
  { operatingCashflow := some (some 100), sharesOutstanding := some (some 10),
    cash := some none }

/-- A ticker for which every provider key is absent. -/
def infoEmpty : Info := {}

/-! ### Claim theorems -/

/-- C1: the claim says the indexing of the 5-element growth list by year
indices 0..19 stays in bounds and all 20 projected values are produced.  In
the code the loop runs `i = 0..19` over the 5-element list, so `growths[5]`
raises `IndexError` on every call with a positive EPS: here, at EPS 1,
growth 0.10 and discount rate 0.10, the body raises `IndexError` and the
call returns `None` instead of producing projections. -/
theorem C1_eps_index_error :
    calculate_eps_valuation_body (some infoEps) 0.10 0.10 = .error .indexError
    ∧ calculate_eps_valuation (some infoEps) 0.10 0.10 = none :=
  ⟨by rfl, by rfl⟩

/-- C2 counterexample: with discounted projections summing to 1 and a
discounted terminal of 2 the cap branch fires (2/3 > 0.6), the code returns
intrinsic 14/5 with capped terminal 9/5, and the claimed fixed-point
equation `capped = 0.6 * intrinsic` fails: 9/5 ≠ 0.6 * (14/5). -/
theorem C2_counterexample :
    eps_cap [1] 2 = .ok (14 / 5, 9 / 5) ∧ (9 / 5 : ℚ) ≠ 0.6 * (14 / 5) := by
  constructor
  · have h0 : (([1] : List ℚ).sum + 2) ≠ 0 := by norm_num
    have hq : (0.6 : ℚ) < 2 / (([1] : List ℚ).sum + 2) := by norm_num
    simp only [eps_cap, pydiv_ok _ h0, exbind_ok, expure_ok]
    rw [if_pos hq]
    norm_num
  · norm_num

/-- C2 amended: when the discounted terminal value divided by the naive
intrinsic value (sum of discounted projections plus discounted terminal)
exceeds 0.6, the capped terminal contribution equals exactly 0.6 times the
NAIVE intrinsic value — not 0.6 times the recomputed one — and the returned
intrinsic value equals the sum of discounted projections plus that capped
contribution. -/
theorem C2_cap_amended (discounted : List ℚ) (dt : ℚ)
    (h0 : discounted.sum + dt ≠ 0)
    (h : (0.6 : ℚ) < dt / (discounted.sum + dt)) :
    eps_cap discounted dt =
      .ok (discounted.sum + 0.6 * (discounted.sum + dt),
        0.6 * (discounted.sum + dt)) := by
  simp only [eps_cap, pydiv_ok _ h0, exbind_ok, expure_ok]
  rw [if_pos h]

/-- Witness for C2 amended at discounted projections `[1]` and discounted
terminal 3. -/
theorem C2_amended_witness :
    (([1] : List ℚ).sum + 3 ≠ 0)
    ∧ (0.6 : ℚ) < 3 / (([1] : List ℚ).sum + 3)
    ∧ eps_cap [1] 3 =
        .ok (([1] : List ℚ).sum + 0.6 * (([1] : List ℚ).sum + 3),
          0.6 * (([1] : List ℚ).sum + 3)) :=
  ⟨by norm_num, by norm_num, C2_cap_amended [1] 3 (by norm_num) (by norm_num)⟩

/-- C7: for every last projected value `V` and discount rate `r > 0.04`, the
undiscounted terminal value equals `V * (1 + 0.04) / (r - 0.04)` (for
`r = 0.10` this is `V * 1.04 / 0.06`), and the discounted terminal value is
that quantity times `(1+r)^-20`, the same 20-year divisor as the final
projection row. -/
theorem C7_terminal (V r : ℚ) (h : (0.04 : ℚ) < r) :
    eps_terminal_value V r = .ok (V * (1 + 0.04) / (r - 0.04))
    ∧ eps_terminal_value V 0.10 = .ok (V * 1.04 / 0.06)
    ∧ (∀ terminal : ℚ,
        eps_discounted_terminal terminal r = .ok (terminal * ((1 + r) ^ 20)⁻¹))
    ∧ (1 + r) ^ FORECAST_YEARS = eps_row_divisor r 19 := by
  have hd : r - 0.04 ≠ 0 := sub_ne_zero.mpr (ne_of_gt h)
  have hpos : (0 : ℚ) < 1 + r := by linarith
  have hp : (1 + r) ^ FORECAST_YEARS ≠ 0 := pow_ne_zero _ (ne_of_gt hpos)
  refine ⟨?_, ?_, fun terminal => ?_, rfl⟩
  · show pydiv (V * (1 + 0.04)) (r - 0.04) = _
    rw [pydiv_ok _ hd]
  · show pydiv (V * (1 + 0.04)) (0.10 - 0.04) = _
    rw [pydiv_ok _ (by norm_num)]
    norm_num
  · show pydiv terminal ((1 + r) ^ FORECAST_YEARS) = _
    rw [pydiv_ok _ hp]
    rw [div_eq_mul_inv]
    rfl

/-- Witness for C7 at `V = 2`, `r = 0.10`. -/
theorem C7_witness :
    (0.04 : ℚ) < 0.10
    ∧ eps_terminal_value 2 0.10 = .ok (2 * (1 + 0.04) / (0.10 - 0.04)) :=
  ⟨by norm_num, (C7_terminal 2 0.10 (by norm_num)).1⟩

/-- C8: the derived discount rate is `0.045 + beta * 0.025`, where beta is
the provider value when present and strictly positive, and exactly 1.0 in
every other case: present non-positive, present `None`, key absent, or the
provider fetch failing entirely. -/
theorem C8_beta_discount :
    (∀ (info : Info) (b : ℚ), dictGet info.beta none = some b → 0 < b →
        calculated_discount_rate (some info) = 0.045 + b * 0.025)
    ∧ (∀ (info : Info) (b : ℚ), dictGet info.beta none = some b → b ≤ 0 →
        calculated_discount_rate (some info) = 0.045 + 1.0 * 0.025)
    ∧ (∀ info : Info, dictGet info.beta none = none →
        calculated_discount_rate (some info) = 0.045 + 1.0 * 0.025)
    ∧ calculated_discount_rate none = 0.045 + 1.0 * 0.025 := by
  refine ⟨fun info b hb hpos => ?_, fun info b hb hle => ?_, fun info hb => ?_, by rfl⟩
  · simp [calculated_discount_rate, get_beta, hb, hpos, ne_of_gt hpos,
      RISK_FREE_RATE, MARKET_RISK_PREMIUM]
  · have hcond : ¬(b ≠ 0 ∧ 0 < b) := by
      rintro ⟨h1, h2⟩
      exact absurd h2 (not_lt.mpr hle)
    simp [calculated_discount_rate, get_beta, hb, hcond,
      RISK_FREE_RATE, MARKET_RISK_PREMIUM]
  · simp [calculated_discount_rate, get_beta, hb, RISK_FREE_RATE, MARKET_RISK_PREMIUM]

/-- Witness for C8 at a present beta of 2. -/
theorem C8_witness :
    dictGet infoBeta.beta none = some 2 ∧ (0 : ℚ) < 2
    ∧ calculated_discount_rate (some infoBeta) = 0.045 + 2 * 0.025 :=
  ⟨rfl, by norm_num, C8_beta_discount.1 infoBeta 2 rfl (by norm_num)⟩

/-- C9: for every input — any combination of absent, null or non-positive
provider fields, any discount and growth rate, and even a failing provider
fetch — each valuation call returns either a numeric result or `None`: the
exception handlers at the engine boundary (modelled by the wrapper `match`
over the `Except`-valued bodies) catch every raised exception, and the
functions are pure, so a failed call cannot affect a later one. -/
theorem C9_engine_boundary (fetch : Option Info) (r g : ℚ) :
    (calculate_eps_valuation fetch r g = none
      ∨ ∃ v : ℚ, calculate_eps_valuation fetch r g = some v)
    ∧ (calculate_ocf_based_intrinsic_value fetch r = none
      ∨ ∃ t : ℚ × List ℚ × List ℚ,
          calculate_ocf_based_intrinsic_value fetch r = some t) := by
  constructor
  · cases h : calculate_eps_valuation fetch r g with
    | none => exact .inl rfl
    | some v => exact .inr ⟨v, rfl⟩
  · cases h : calculate_ocf_based_intrinsic_value fetch r with
    | none => exact .inl rfl
    | some t => exact .inr ⟨t, rfl⟩

/-- C3 counterexample: with quarterly earnings growth present and negative
(-0.5), OCF 100, 10 shares and discount rate 0.08, the OCF valuation's first
projected value is `100 * (1 + (-0.5)) = 50`, not the `100 * 1.10 = 110`
that a 0.10 default near-term rate would give: the OCF variant uses the raw
provider value, not 0.10, when the key is present with a non-positive
value. -/
theorem C3_counterexample :
    (calculate_ocf_based_intrinsic_value (some infoNeg) 0.08).map
        (fun t => t.2.1.head?) = some (some 50)
    ∧ (calculate_ocf_based_intrinsic_value (some infoNeg) 0.08).map
        (fun t => t.2.1.head?) ≠ some (some (100 * (1 + 0.10))) := by
  have h := ocf_eval infoNeg 0.08 (-0.5) 100 10 0 0 0 0 rfl rfl rfl (by norm_num)
    (by norm_num) (by norm_num) rfl rfl rfl rfl
  have hr20 : List.range' 1 FORECAST_YEARS = 1 :: List.range' 2 19 := rfl
  rw [h]
  constructor
  · simp [hr20, ocf_growth]
    norm_num
  · simp [hr20, ocf_growth]
    norm_num

/-- C3 amended: the standalone resolver `get_growth_rate` returns the
provider value (with tag "Yahoo Finance") exactly when it is present and
strictly positive, and exactly 0.10 with tag "Default" otherwise; but the
OCF-based valuation substitutes 0.10 only when the key is absent — a
present numeric value, zero or negative included, is used as the near-term
growth rate as-is (witnessed by the first projected value `ocf * (1+g)`). -/
theorem C3_growth_amended :
    (∀ info : Info, dictGet info.earningsQuarterlyGrowth none = none →
        get_growth_rate (some info) = (0.10, "Default"))
    ∧ (∀ (info : Info) (g : ℚ),
        dictGet info.earningsQuarterlyGrowth none = some g → g ≤ 0 →
        get_growth_rate (some info) = (0.10, "Default"))
    ∧ get_growth_rate none = (0.10, "Default")
    ∧ (∀ (info : Info) (g : ℚ),
        dictGet info.earningsQuarterlyGrowth none = some g → 0 < g →
        get_growth_rate (some info) = (g, "Yahoo Finance"))
    ∧ (∀ (info : Info) (r g ocf sh c si sd ld : ℚ),
        info.earningsQuarterlyGrowth = some (some g) →
        dictGet info.operatingCashflow none = some ocf →
        dictGet info.sharesOutstanding none = some sh →
        0 < ocf → 0 < sh → 0 < r →
        dictGet info.cash (some 0) = some c →
        dictGet info.shortTermInvestments (some 0) = some si →
        dictGet info.shortTermDebt (some 0) = some sd →
        dictGet info.longTermDebt (some 0) = some ld →
        (calculate_ocf_based_intrinsic_value (some info) r).map
          (fun t => t.2.1.head?) = some (some (ocf * (1 + g)))) := by
  refine ⟨fun info hg => ?_, fun info g hg hle => ?_, rfl, fun info g hg hpos => ?_, ?_⟩
  · simp [get_growth_rate, hg]
  · have hcond : ¬(g ≠ 0 ∧ 0 < g) := by
      rintro ⟨h1, h2⟩
      exact absurd h2 (not_lt.mpr hle)
    simp [get_growth_rate, hg, hcond]
  · simp [get_growth_rate, hg, hpos, ne_of_gt hpos]
  · intro info r g ocf sh c si sd ld hgr ho hs hop hsp hrp hc hsi hsd hld
    have hg : dictGet info.earningsQuarterlyGrowth (some 0.10) = some g := by
      rw [hgr]; rfl
    have h := ocf_eval info r g ocf sh c si sd ld hg ho hs hop hsp
      (ne_of_gt (by linarith)) hc hsi hsd hld
    have hr20 : List.range' 1 FORECAST_YEARS = 1 :: List.range' 2 19 := rfl
    rw [h]
    simp [hr20, pow_one, ocf_growth]

/-- Witness for C3 amended: absent growth resolves to the 0.10 default with
the "Default" tag, a present positive growth of 0.2 is used with the
provider tag, and a present negative growth of -0.5 is used raw by the OCF
variant. -/
theorem C3_witness :
    dictGet infoEmpty.earningsQuarterlyGrowth none = none
    ∧ get_growth_rate (some infoEmpty) = (0.10, "Default")
    ∧ dictGet infoGrowth.earningsQuarterlyGrowth none = some 0.2
    ∧ (0 : ℚ) < 0.2
    ∧ get_growth_rate (some infoGrowth) = (0.2, "Yahoo Finance")
    ∧ (calculate_ocf_based_intrinsic_value (some infoNeg) 0.08).map
        (fun t => t.2.1.head?) = some (some (100 * (1 + (-0.5)))) :=
  ⟨rfl, C3_growth_amended.1 infoEmpty rfl, rfl, by norm_num,
    C3_growth_amended.2.2.2.1 infoGrowth 0.2 rfl (by norm_num),
    C3_growth_amended.2.2.2.2 infoNeg 0.08 (-0.5) 100 10 0 0 0 0 rfl rfl rfl
      (by norm_num) (by norm_num) (by norm_num) rfl rfl rfl rfl⟩

/-- C4 counterexample: the OCF-based valuation called with discount rate
exactly 0.04 and valid positive fundamentals (OCF 100, 10 shares) returns a
numeric result — it performs no terminal-value division, so no DomainError
and no abort occurs, contradicting the claim for the OCF variant. -/
theorem C4_counterexample :
    (calculate_ocf_based_intrinsic_value (some infoOCF) 0.04).isSome = true := by
  rw [ocf_eval infoOCF 0.04 0.10 100 10 0 0 0 0 rfl rfl rfl (by norm_num) (by norm_num)
    (by norm_num) rfl rfl rfl rfl]
  rfl

/-- C4 amended: for the EPS-based variant every call with discount rate at
most 0.04 yields no numeric result (its caught exception — the projection
index error, and at `r = 0.04` the terminal zero-division — aborts the
call); the OCF-based variant performs no terminal-value division at all and
returns a numeric result at such rates given valid positive fundamentals. -/
theorem C4_amended :
    (∀ (fetch : Option Info) (r g : ℚ), r ≤ 0.04 →
        calculate_eps_valuation fetch r g = none)
    ∧ (∀ (info : Info) (r g ocf sh c si sd ld : ℚ), 0 < r → r ≤ 0.04 →
        dictGet info.earningsQuarterlyGrowth (some 0.10) = some g →
        dictGet info.operatingCashflow none = some ocf →
        dictGet info.sharesOutstanding none = some sh →
        0 < ocf → 0 < sh →
        dictGet info.cash (some 0) = some c →
        dictGet info.shortTermInvestments (some 0) = some si →
        dictGet info.shortTermDebt (some 0) = some sd →
        dictGet info.longTermDebt (some 0) = some ld →
        (calculate_ocf_based_intrinsic_value (some info) r).isSome = true) := by
  constructor
  · exact fun fetch r g _ => calculate_eps_valuation_eq_none fetch r g
  · intro info r g ocf sh c si sd ld hrp _ hg ho hs hop hsp hc hsi hsd hld
    rw [ocf_eval info r g ocf sh c si sd ld hg ho hs hop hsp
      (ne_of_gt (by linarith)) hc hsi hsd hld]
    rfl

/-- Witness for C4 amended at discount rate exactly 0.04. -/
theorem C4_witness :
    (0.04 : ℚ) ≤ 0.04
    ∧ calculate_eps_valuation (some infoEps) 0.04 0.10 = none
    ∧ (0 : ℚ) < 0.04
    ∧ (calculate_ocf_based_intrinsic_value (some infoOCF) 0.04).isSome = true :=
  ⟨le_refl _, C4_amended.1 (some infoEps) 0.04 0.10 (le_refl _), by norm_num,
    C4_amended.2 infoOCF 0.04 0.10 100 10 0 0 0 0 (by norm_num) (le_refl _) rfl rfl rfl
      (by norm_num) (by norm_num) rfl rfl rfl rfl⟩

/-- C5: for a positive OCF base, positive shares outstanding, resolved
near-term growth `g`, positive discount rate `r` and numeric-or-absent
balance-sheet fields, each year `t` in 1..20 uses growth `g` for `t ≤ 5`,
`g/2` for `6 ≤ t ≤ 10` and 0.04 afterwards; its projected value is
`ocf * (1 + growth_t) ^ t` compounded from the base, its discounted value
is the projected value divided by `(1+r)^t`, and the returned value is
`sum(discounted)/shares + (cash + shortTermInvestments)/shares -
(shortTermDebt + longTermDebt)/shares` rounded to 2 decimal places. -/
theorem C5_ocf_projection (info : Info) (r g ocf sh c si sd ld : ℚ)
    (hg : dictGet info.earningsQuarterlyGrowth (some 0.10) = some g)
    (ho : dictGet info.operatingCashflow none = some ocf)
    (hs : dictGet info.sharesOutstanding none = some sh)
    (hop : 0 < ocf) (hsp : 0 < sh) (hrp : 0 < r)
    (hc : dictGet info.cash (some 0) = some c)
    (hsi : dictGet info.shortTermInvestments (some 0) = some si)
    (hsd : dictGet info.shortTermDebt (some 0) = some sd)
    (hld : dictGet info.longTermDebt (some 0) = some ld) :
    calculate_ocf_based_intrinsic_value (some info) r =
      some
        (round2 (((List.range' 1 FORECAST_YEARS).map (fun t =>
              ocf * (1 + ocf_growth g t) ^ t / (1 + r) ^ t)).sum / sh
            + (c + si) / sh - (sd + ld) / sh),
         (List.range' 1 FORECAST_YEARS).map (fun t => ocf * (1 + ocf_growth g t) ^ t),
         (List.range' 1 FORECAST_YEARS).map (fun t =>
           ocf * (1 + ocf_growth g t) ^ t / (1 + r) ^ t))
    ∧ ∀ t : ℕ, ocf_growth g t = if t ≤ 5 then g else if t ≤ 10 then g / 2 else 0.04 := by
  constructor
  · have h := ocf_eval info r g ocf sh c si sd ld hg ho hs hop hsp
      (ne_of_gt (by linarith)) hc hsi hsd hld
    simpa [mul_one_div] using h
  · intro t
    simp [ocf_growth, TERMINAL_GROWTH_RATE]

/-- Witness for C5 with OCF 100, 10 shares, absent growth (so `g = 0.10`),
absent balance fields and discount rate 0.08. -/
theorem C5_witness :
    dictGet infoOCF.earningsQuarterlyGrowth (some 0.10) = some 0.10
    ∧ dictGet infoOCF.operatingCashflow none = some 100
    ∧ dictGet infoOCF.sharesOutstanding none = some 10
    ∧ (0 : ℚ) < 100 ∧ (0 : ℚ) < 10 ∧ (0 : ℚ) < 0.08
    ∧ (calculate_ocf_based_intrinsic_value (some infoOCF) 0.08).isSome = true := by
  refine ⟨rfl, rfl, rfl, by norm_num, by norm_num, by norm_num, ?_⟩
  rw [(C5_ocf_projection infoOCF 0.08 0.10 100 10 0 0 0 0 rfl rfl rfl (by norm_num)
    (by norm_num) (by norm_num) rfl rfl rfl rfl).1]
  rfl

/-- C6: whenever operating cash flow is absent, null or non-positive, or
shares outstanding is absent, null or non-positive, the OCF valuation
returns no result; moreover (whenever the growth field is numeric or
absent) the body reaches the explicit missing-data early return — it does
not raise a division-by-zero (or any other) exception. -/
theorem C6_missing_data (info : Info) (r : ℚ)
    (h : dictGet info.operatingCashflow none = none
      ∨ (∃ v, dictGet info.operatingCashflow none = some v ∧ v ≤ 0)
      ∨ dictGet info.sharesOutstanding none = none
      ∨ (∃ v, dictGet info.sharesOutstanding none = some v ∧ v ≤ 0)) :
    calculate_ocf_based_intrinsic_value (some info) r = none
    ∧ (∀ g : ℚ, dictGet info.earningsQuarterlyGrowth (some 0.10) = some g →
        calculate_ocf_body (some info) r = .ok none) := by
  cases hg : dictGet info.earningsQuarterlyGrowth (some 0.10) with
  | none =>
    refine ⟨by simp [calculate_ocf_based_intrinsic_value, calculate_ocf_body, hg], ?_⟩
    intro g hg'
    exact absurd hg' (by simp)
  | some g =>
    have hbody : calculate_ocf_body (some info) r = .ok none := by
      cases ho : dictGet info.operatingCashflow none with
      | none =>
        cases hs : dictGet info.sharesOutstanding none with
        | none => simp [calculate_ocf_body, hg, ho, hs]
        | some sh => simp [calculate_ocf_body, hg, ho, hs]
      | some ocf =>
        cases hs : dictGet info.sharesOutstanding none with
        | none => simp [calculate_ocf_body, hg, ho, hs]
        | some sh =>
          have hle : ocf ≤ 0 ∨ sh ≤ 0 := by
            rcases h with h | ⟨v, hv, hv2⟩ | h | ⟨v, hv, hv2⟩
            · rw [ho] at h; cases h
            · rw [ho] at hv
              injection hv with hv
              exact .inl (hv ▸ hv2)
            · rw [hs] at h; cases h
            · rw [hs] at hv
              injection hv with hv
              exact .inr (hv ▸ hv2)
          simp [calculate_ocf_body, hg, ho, hs, if_pos hle]
    exact ⟨by simp [calculate_ocf_based_intrinsic_value, hbody], fun g' _ => hbody⟩

/-- Witness for C6 on a snapshot with every key absent. -/
theorem C6_witness :
    dictGet infoEmpty.operatingCashflow none = none
    ∧ calculate_ocf_based_intrinsic_value (some infoEmpty) 0.08 = none
    ∧ calculate_ocf_body (some infoEmpty) 0.08 = .ok none :=
  ⟨rfl, (C6_missing_data infoEmpty 0.08 (.inl rfl)).1,
    (C6_missing_data infoEmpty 0.08 (.inl rfl)).2 0.10 rfl⟩

/-- C10: the zero defaults for the balance-sheet fields apply only to absent
keys: if `cash`, `shortTermInvestments`, `shortTermDebt` or `longTermDebt`
is present with an explicit null value, the whole OCF valuation returns no
result (the null propagates into per-share arithmetic and raises a caught
`TypeError`), even when OCF and shares outstanding are valid and
positive. -/
theorem C10_null_balance (info : Info) (r ocf sh : ℚ)
    (ho : info.operatingCashflow = some (some ocf)) (hop : 0 < ocf)
    (hs : info.sharesOutstanding = some (some sh)) (hsp : 0 < sh)
    (hnull : info.cash = some none ∨ info.shortTermInvestments = some none
      ∨ info.shortTermDebt = some none ∨ info.longTermDebt = some none) :
    calculate_ocf_based_intrinsic_value (some info) r = none := by
  have ho' : dictGet info.operatingCashflow none = some ocf := by rw [ho]; rfl
  have hs' : dictGet info.sharesOutstanding none = some sh := by rw [hs]; rfl
  cases hg : dictGet info.earningsQuarterlyGrowth (some 0.10) with
  | none => simp [calculate_ocf_based_intrinsic_value, calculate_ocf_body, hg]
  | some g =>
    by_cases hr : (1 : ℚ) + r = 0
    · have hbody : calculate_ocf_body (some info) r = .error .zeroDivisionError := by
        simp only [calculate_ocf_body, hg, pynum_some, exbind_ok, ho', hs']
        rw [if_neg (by push_neg; exact ⟨hop, hsp⟩), ocf_rows_div0 ocf g r hr]
        rfl
      simp [calculate_ocf_based_intrinsic_value, hbody]
    · have hbody : calculate_ocf_body (some info) r = .error .typeError := by
        simp only [calculate_ocf_body, hg, pynum_some, exbind_ok, ho', hs']
        rw [if_neg (by push_neg; exact ⟨hop, hsp⟩), ocf_rows_ok ocf g r hr]
        simp only [exbind_ok, map_fst_pairs, map_snd_pairs]
        rw [pydiv_ok _ (ne_of_gt hsp)]
        simp only [exbind_ok]
        rcases hnull with h | h | h | h
        · simp [dictGet, h]
        · cases hc : dictGet info.cash (some 0) with
          | none => simp
          | some c => simp [dictGet, h]
        · cases hc : dictGet info.cash (some 0) with
          | none => simp
          | some c =>
            cases hsi : dictGet info.shortTermInvestments (some 0) with
            | none => simp
            | some si => simp [dictGet, h]
        · cases hc : dictGet info.cash (some 0) with
          | none => simp
          | some c =>
            cases hsi : dictGet info.shortTermInvestments (some 0) with
            | none => simp
            | some si =>
              cases hsd : dictGet info.shortTermDebt (some 0) with
              | none => simp
              | some sd => simp [dictGet, h]
      simp [calculate_ocf_based_intrinsic_value, hbody]

/-- Witness for C10: valid OCF 100 and 10 shares, `cash` present null. -/
theorem C10_witness :
    infoNull.operatingCashflow = some (some 100) ∧ (0 : ℚ) < 100
    ∧ infoNull.sharesOutstanding = some (some 10) ∧ (0 : ℚ) < 10
    ∧ infoNull.cash = some none
    ∧ calculate_ocf_based_intrinsic_value (some infoNull) 0.08 = none :=
  ⟨rfl, by norm_num, rfl, by norm_num, rfl,
    C10_null_balance infoNull 0.08 100 10 rfl (by norm_num) rfl (by norm_num) (.inl rfl)⟩

